import Mathlib

/-!
# Constellation Engine — verification of the ingestion & dashboard pipeline

Shallow embedding of the TypeScript source of the constellation-engine
repository.  Pure data flow is translated into executable Lean functions;
the external collaborators (generation oracle, embedding oracle, Pinecone
vector index, DynamoDB, GitHub archival store) are modelled as explicit
state/parameters following the interfaces in the spec.  Each definition's
doc comment cites the source file and lines it embeds.
-/

namespace Constellation

/-- JavaScript string truthiness for an optional string field:
`undefined` and `""` are falsy, everything else truthy. -/
def jsTruthyOptStr : Option String → Bool
  | none => false
  | some s => !s.isEmpty

/-- JavaScript `x || undefined` on an optional string: collapses a falsy
value (absent or empty) to `undefined`. -/
def jsOrUndef (s : Option String) : Option String :=
  if jsTruthyOptStr s then s else none

/-- Character-list prefix test used to implement substring containment. -/
def chListHasPre : List Char → List Char → Bool
  | [], _ => true
  | _ :: _, [] => false
  | p :: ps, c :: cs => p == c && chListHasPre ps cs

/-- Character-list substring containment (semantics of JS `String.includes`). -/
def chListContains (sub : List Char) : List Char → Bool
  | [] => chListHasPre sub []
  | c :: t => chListHasPre sub (c :: t) || chListContains sub t

/-- The test `containsSub s sub` models JavaScript `s.includes(sub)`. -/
def containsSub (s sub : String) : Bool :=
  chListContains sub.data s.data

/-- From `src/src/lib/schemas.ts` lines 40–49: the strict schema produced by the
intent router.  `mediaType` is declared required in the TS type but the
runtime value comes from `JSON.parse` of oracle output and the orchestrator
explicitly handles its absence, so it is modelled as optional. -/
structure IntentRouterOutput where
  intent : String
  isOriginal : Bool
  sourceURL : Option String := none
  sourceTitle : Option String := none
  sourceAuthor : Option String := none
  content : String
  tags : List String := []
  mediaType : Option String := none
  deriving Repr, DecidableEq

/-- From `src/src/lib/schemas.ts` lines 2–24: a record of the unified DynamoDB
table (entries and dashboards share the single-table layout). -/
structure ConstellationRecord where
  PK : String
  SK : String
  id : String
  type : String
  createdAt : String
  updatedAt : String
  content : String
  isOriginal : Bool
  sourceURL : Option String := none
  sourceTitle : Option String := none
  sourceAuthor : Option String := none
  mediaType : Option String := none
  tags : Option (List String) := none
  lastAccessed : String
  skipBackup : Bool := false
  deriving Repr, DecidableEq

/-- The DynamoDB table, modelled as an association list from
`(PK, SK)` to the stored record; `putRecord` shadows older items, matching
DynamoDB `Put` overwrite semantics as observed through `getRecord`. -/
abbrev Table := List ((String × String) × ConstellationRecord)

/-- Models `get(partitionKey, sortKey) → item?` of the Durable Record Store
(spec §6); implements `GetCommand` / `getRecord` of `src/src/lib/dynamo.ts`. -/
def getRecord (t : Table) (pk sk : String) : Option ConstellationRecord :=
  (t.find? (fun e => e.1.1 == pk && e.1.2 == sk)).map (fun e => e.2)

/-- Models `put(partitionKey, sortKey, item)` of the Durable Record Store;
implements `PutCommand` / `saveRecord` (full-item overwrite at the key). -/
def putRecord (t : Table) (r : ConstellationRecord) : Table :=
  ((r.PK, r.SK), r) :: t

/-- From `src/src/ingest.ts` lines 156–160: the content override.  For text (or
missing) media type the orchestrator stores the raw input verbatim and
trusts the router's `content` only for non-text media.
`routerOutput.mediaType === 'text' || !routerOutput.mediaType`. -/
def mkFinalContent (ro : IntentRouterOutput) (rawInput : String) : String :=
  if ro.mediaType == some "text" || !(jsTruthyOptStr ro.mediaType) then rawInput
  else ro.content

/-- From `src/src/ingest.ts` lines 162–177: the Entry record assembled by the
save / log_reading branch (`routerOutput.sourceURL || undefined` etc.). -/
def mkEntryRecord (userId rawInput : String) (ro : IntentRouterOutput)
    (idv now : String) : ConstellationRecord :=
  { PK := "USER#" ++ userId
    SK := "ENTRY#" ++ idv
    id := idv
    type := "Entry"
    createdAt := now
    updatedAt := now
    content := mkFinalContent ro rawInput
    isOriginal := ro.isOriginal
    sourceURL := jsOrUndef ro.sourceURL
    sourceTitle := jsOrUndef ro.sourceTitle
    sourceAuthor := jsOrUndef ro.sourceAuthor
    mediaType := ro.mediaType
    tags := some ro.tags
    lastAccessed := now }

/-- From `src/src/librarian/logBook.ts` line 10 / `persistRecs.ts` line 8. -/
def READING_LIST_PK : String := "DASHBOARD#reading_list"

/-- From `src/src/librarian/logBook.ts` line 11 / `persistRecs.ts` line 9. -/
def READING_LIST_SK : String := "STATE"

/-- From `src/src/librarian/logBook.ts` lines 14–25: seed template used when no
reading-list dashboard record exists yet. -/
def INITIAL_READING_LIST : String :=
  "# 📚 The Reading List\n*Curated wisdom for your journey.*\n\n## 🌟 Top Recommendations\n*(No recommendations generated yet. Run the /read command to generate.)*\n\n## 📖 Current Reading\n- **Title:** [Placeholder]\n- **Author:** [Placeholder]\n\n## 🗃️ Archive\n*(Empty)*"

/-- From `src/src/librarian/logBook.ts` lines 27–29: strip code-fence wrapping
(`/```markdown\n?/g` then `/```/g`) and trim.  The optional-newline regex is
rendered as two sequential literal replacements. -/
def lbSanitizeMarkdown (text : String) : String :=
  ((((text.replace "```markdown\n" "").replace "```markdown" "").replace "```" "").trim)

/-- The two `new Date().toISOString()` evaluations inside
`updateReadingList` (lines 37 and 86 of `logBook.ts`). -/
structure LogBookClock where
  now : String
  isoDate : String
  deriving Repr, DecidableEq

/-- From `src/src/librarian/logBook.ts` lines 31–113, `updateReadingList`:
fetch the current reading-list dashboard (template-seeded when the record
is absent or its `content` is falsy), ask the generation oracle for the
full replacement document, sanitize it and persist it.  The oracle is the
black-box Gemini call; its prompt is a fixed template over the new log
entry and the current dashboard content, so it is modelled as a function
of those two inputs.  Returns the updated table and the new content. -/
def updateReadingList (oracle : String → String → String) (clk : LogBookClock)
    (t : Table) (newLog : String) : Table × String :=
  let item := getRecord t READING_LIST_PK READING_LIST_SK
  let currentContent :=
    match item with
    | some it => if !it.content.isEmpty then it.content else INITIAL_READING_LIST
    | none => INITIAL_READING_LIST
  let createdAt :=
    match item with
    | some it => if !it.content.isEmpty then it.createdAt else clk.now
    | none => clk.now
  let newContent := lbSanitizeMarkdown (oracle newLog currentContent)
  let record : ConstellationRecord :=
    { PK := READING_LIST_PK
      SK := READING_LIST_SK
      id := "reading_list"
      type := "Dashboard"
      createdAt := createdAt
      updatedAt := clk.isoDate
      content := newContent
      isOriginal := false
      mediaType := some "text"
      lastAccessed := clk.isoDate }
  (putRecord t record, newContent)

/-- The two `new Date().toISOString()` evaluations inside the
`persistRecs` handler (lines 20 and 34 of `persistRecs.ts`). -/
structure PersistRecsClock where
  now : String
  isoDate : String
  deriving Repr, DecidableEq

/-- From `src/src/librarian/persistRecs.ts` lines 11–61: the batch
recommendation persistence handler.  Skip-guard:
`!markdownContent || markdownContent.includes("No new book recommendations")`.
Otherwise it reads the existing dashboard record only to preserve a truthy
`createdAt`, then performs a full-document `Put` whose `content` is exactly
`markdownContent`.  Returns the updated table and the `success` flag. -/
def persistRecsHandler (clk : PersistRecsClock) (t : Table)
    (markdownContent : String) : Table × Bool :=
  if markdownContent.isEmpty || containsSub markdownContent "No new book recommendations" then
    (t, true)
  else
    let createdAt :=
      match getRecord t READING_LIST_PK READING_LIST_SK with
      | some it => if !it.createdAt.isEmpty then it.createdAt else clk.now
      | none => clk.now
    let record : ConstellationRecord :=
      { PK := READING_LIST_PK
        SK := READING_LIST_SK
        id := "reading_list"
        type := "Dashboard"
        createdAt := createdAt
        updatedAt := clk.isoDate
        content := markdownContent
        isOriginal := false
        mediaType := some "text"
        lastAccessed := clk.isoDate }
    (putRecord t record, true)

/-- From `src/src/librarian/synthesizeInsights.ts` lines 9–17: the validated
Google-Books volume shape. -/
structure VolumeInfo where
  title : String
  authors : Option (List String) := none
  deriving Repr, DecidableEq

/-- From `src/src/librarian/synthesizeInsights.ts` lines 9–17. -/
structure Book where
  id : String
  volumeInfo : VolumeInfo
  deriving Repr, DecidableEq

/-- From `src/src/librarian/synthesizeInsights.ts` lines 19–24. -/
structure ArticleItem where
  title : String
  url : String
  source : String
  contentPayload : String
  deriving Repr, DecidableEq

/-- From `src/src/librarian/synthesizeInsights.ts` lines 41–149 (result value):
after extracting books (null payloads filtered out) and articles, the
handler returns the fixed placeholder when both are empty (lines 81–84);
otherwise it returns the oracle's markdown prefixed with a timestamped
header (lines 139–149).  The oracle call and timestamp formatting are
abstracted as the `oracleText` and `timestamp` parameters. -/
def synthesizeInsightsResult (books : List (Option Book))
    (articles : List ArticleItem) (oracleText timestamp : String) : String :=
  let validBooks := books.filterMap id
  if validBooks.isEmpty && articles.isEmpty then
    "## No new recommendations were found in this run."
  else
    "# Dialectical Librarian Recommendations for " ++ timestamp ++ "\n\n" ++ oracleText

/-- One awaited external-store operation, in program order.  Constructors
cover the calls the ingestion paths issue: DynamoDB entry put, DynamoDB
dashboard get/put, DynamoDB recent-entry query, Pinecone upsert, Pinecone
similarity query (with its optional owner filter), embedding and
generation oracle calls. -/
inductive TraceEv where
  | dynPutEntry (pk sk : String)
  | dynGetDashboard (pk sk : String)
  | dynPutDashboard (pk sk : String)
  | dynQueryRecent
  | pineUpsert (id : String) (ns : Option String)
  | pineQuery (ns : Option String) (userFilter : Option String)
  | embed
  | generate
  deriving Repr, DecidableEq

/-- Ordering check: `durableFirst seen tr = true` iff every Pinecone entry upsert in `tr`
is preceded by a DynamoDB entry put (`seen` records whether a durable
entry write has already been issued).  This is the ordering demanded by
spec §4.4 step 4. -/
def durableFirst : Bool → List TraceEv → Bool
  | _, [] => true
  | _, TraceEv.dynPutEntry _ _ :: t => durableFirst true t
  | seen, TraceEv.pineUpsert _ _ :: t => seen && durableFirst seen t
  | seen, _ :: t => durableFirst seen t

/-- Stub behaviour of the external collaborators during one ingestion
request: whether the Pinecone upsert throws, and the generation oracle
used by `updateReadingList` in the log_reading sub-branch. -/
structure IngestEnv where
  upsertFails : Bool
  oracle : String → String → String
  lbClock : LogBookClock

/-- Outcome of the save / log_reading branch: the HTTP status code of the
returned response, the resulting DynamoDB table, and the ordered trace of
external store operations actually issued. -/
structure IngestOut where
  statusCode : Nat
  db : Table
  trace : List TraceEv

/-- From `src/src/ingest.ts` lines 150–235, BRANCH B (save / log_reading):
build the Entry record (raw input preserved for text media), `Put` it to
DynamoDB, embed the router content, upsert the projection to Pinecone, and
for `log_reading` additionally run `updateReadingList` on the final
content.  Every call is awaited inside the handler's single top-level
`try`; a Pinecone upsert failure therefore propagates to the `catch` at
lines 229–235, which returns status 500 — after the DynamoDB put has
already been issued.  `idv`/`now` are the KSUID and timestamp of lines
152–153. -/
def ingestSaveBranch (userId rawInput : String) (ro : IntentRouterOutput)
    (idv now : String) (env : IngestEnv) (t : Table) : IngestOut :=
  let record := mkEntryRecord userId rawInput ro idv now
  let t1 := putRecord t record
  let tr1 := [TraceEv.dynPutEntry record.PK record.SK, TraceEv.embed]
  if env.upsertFails then
    { statusCode := 500, db := t1, trace := tr1 }
  else
    let tr2 := tr1 ++ [TraceEv.pineUpsert idv none]
    if ro.intent == "log_reading" then
      let upd := updateReadingList env.oracle env.lbClock t1 (mkFinalContent ro rawInput)
      { statusCode := 200
        db := upd.1
        trace := tr2 ++ [TraceEv.dynGetDashboard READING_LIST_PK READING_LIST_SK,
                         TraceEv.generate,
                         TraceEv.dynPutDashboard READING_LIST_PK READING_LIST_SK] }
    else
      { statusCode := 200, db := t1, trace := tr2 }

/-- From `src/unnamed/part_013` line 14. -/
def LIFE_LOG_PK : String := "DASHBOARD#life_log"

/-- From `src/unnamed/part_013` line 15. -/
def LIFE_LOG_SK : String := "STATE"

/-- From `src/unnamed/part_013` lines 39–196, the biographer async worker, as
the ordered trace of external store operations it issues.  With `content`
present (lines 70–102) it runs: recent-entry query (line 52), embedding
(line 72), **Pinecone upsert first** (lines 73–79), DynamoDB entry save
second (lines 81–95), then the similarity recall query with namespace
`biography` and **no owner filter** (line 98).  With or without content it
then reads the life-log dashboard, calls the oracle and puts the rewritten
dashboard (lines 104–194). -/
def biographerTrace (hasContent : Bool) (userId entryId : String) : List TraceEv :=
  [TraceEv.dynQueryRecent] ++
  (if hasContent then
    [TraceEv.embed,
     TraceEv.pineUpsert entryId (some "biography"),
     TraceEv.dynPutEntry ("USER#" ++ userId) ("ENTRY#" ++ entryId),
     TraceEv.pineQuery (some "biography") none]
   else []) ++
  [TraceEv.dynGetDashboard LIFE_LOG_PK LIFE_LOG_SK,
   TraceEv.generate,
   TraceEv.dynPutDashboard LIFE_LOG_PK LIFE_LOG_SK]

/-- From `src/unnamed/part_013` lines 180–194: the dashboard record the
biographer persists.  `createdAt: existingDashboard?.createdAt || isoDate`
preserves the original creation date whenever the existing record has a
truthy `createdAt`. -/
def biographerDashRecord (existing : Option ConstellationRecord)
    (isoDate newLifeLogContent : String) : ConstellationRecord :=
  { PK := LIFE_LOG_PK
    SK := LIFE_LOG_SK
    id := "life_log"
    type := "Dashboard"
    createdAt :=
      match existing with
      | some d => if !d.createdAt.isEmpty then d.createdAt else isoDate
      | none => isoDate
    updatedAt := isoDate
    content := newLifeLogContent
    isOriginal := false
    mediaType := some "text"
    lastAccessed := isoDate }

/-- A vector stored in the Pinecone index: id, namespace, values, and the
owner identity carried in its metadata (`PineconeMetadata.userId`,
`src/src/lib/schemas.ts` lines 26–38; absent for vectors written without
that field). -/
structure PineVec where
  id : String
  ns : Option String := none
  values : List Int := []
  userId : Option String := none
  deriving Repr, DecidableEq

/-- Dot-product similarity score used by the index model (vectors are
integer-valued in the embedding; the index is score-agnostic beyond
ranking). -/
def dot : List Int → List Int → Int
  | a :: as, b :: bs => a * b + dot as bs
  | _, _ => 0

/-- Metadata filter semantics of a Pinecone query: `none` means the query
carries no filter; `some u` keeps only vectors whose metadata `userId`
equals `u` (the `{ userId: userId }` filter object). -/
def matchesFilter : Option String → PineVec → Bool
  | none, _ => true
  | some u, v => v.userId == some u

/-- Insert `m` behind every element whose score is `≥ score m`: one step
of a stable descending sort (equal-score elements keep their original
relative order, as ECMAScript `Array.prototype.sort` guarantees). -/
def insertDesc (score : α → Int) (m : α) : List α → List α
  | [] => [m]
  | h :: t => if score m ≤ score h then h :: insertDesc score m t else m :: h :: t

/-- Stable descending sort by `score`; models the JS
`sort((a, b) => scoreOf(b) - scoreOf(a))` on a stable sort. -/
def sortDesc (score : α → Int) (l : List α) : List α :=
  l.foldl (fun acc m => insertDesc score m acc) []

/-- Spec §6 Vector Index `query(namespace, vector, topK, filter?)`
(consumed through `queryPinecone`, `src/src/utils.ts` lines 152–167):
rank the vectors of the namespace that pass the metadata filter by
similarity and return the top `topK`. -/
def pineQuery (idx : List PineVec) (ns : Option String) (vec : List Int)
    (topK : Nat) (filterUser : Option String) : List PineVec :=
  (sortDesc (fun v => dot v.values vec)
      (idx.filter (fun v => v.ns == ns && matchesFilter filterUser v))).take topK

/-- A match object of the fusion step of the ingest query branch: optional
score (`b.score || 0` in the comparator), `createdAt` metadata, and the
`_namespace` tag attached at line 57 of `src/src/ingest.ts`. -/
structure RecallMatch where
  id : String
  score : Option Int := none
  createdAt : String := ""
  nsTag : String := ""
  deriving Repr, DecidableEq

/-- Models `m.score || 0` of the sort comparator (`src/src/ingest.ts` line 64). -/
def scoreOr0 (m : RecallMatch) : Int := m.score.getD 0

/-- From `src/src/ingest.ts` line 54: the namespaces queried by the
cross-domain query branch (`''` denotes the default namespace and is
passed as `undefined`). -/
def queryNamespaces : List String := ["", "biography", "dreams", "fiction", "lyrics", "ideas"]

/-- From `src/src/ingest.ts` lines 54–65 over abstract per-namespace results:
query every namespace, tag each match with its source namespace, merge,
sort by `score || 0` descending (stable), and truncate to the top 15. -/
def crossDomainFusion (queryFn : Option String → List RecallMatch) : List RecallMatch :=
  let allMatches := (queryNamespaces.map (fun ns =>
      (queryFn (if ns.isEmpty then none else some ns)).map
        (fun m => { m with nsTag := ns }))).flatten
  (sortDesc scoreOr0 allMatches).take 15

/-- From `src/src/ingest.ts` lines 54–65 instantiated with the index model:
each per-namespace `queryPinecone` call carries the `{ userId }` filter
(line 56); the merged matches are sorted by their similarity score
descending and truncated to 15. -/
def ingestCrossDomainRecall (idx : List PineVec) (userId : String)
    (vec : List Int) : List PineVec :=
  (sortDesc (fun v => dot v.values vec)
      ((queryNamespaces.map (fun ns =>
          pineQuery idx (if ns.isEmpty then none else some ns) vec 5 (some userId))).flatten)).take 15

/-- From `src/unnamed/part_013` line 98: the biographer's recall query —
namespace `biography`, topK 5, **no metadata filter** (the call passes no
`filter` argument, so no owner scoping is applied). -/
def biographerRecall (idx : List PineVec) (vec : List Int) : List PineVec :=
  pineQuery idx (some "biography") vec 5 none

/-- Outcome of the GitHub contents request issued by `getFile`
(`src/src/utils.ts` lines 104–141): a file (content stored directly; the
base64 transport encoding is elided), a directory listing, or an HTTP
error with its status. -/
inductive GhResult where
  | found (content sha : String)
  | directory
  | err (status : Nat)
  deriving Repr, DecidableEq

/-- Return shape of `getFile`: `{ content, sha }` with `sha : undefined`
when absent. -/
structure FileOut where
  content : String
  sha : Option String
  deriving Repr, DecidableEq

/-- From `src/src/utils.ts` lines 104–141, `getFile`: a directory or a file
missing content/sha yields `{ content: "", sha: undefined }`; a thrown
404 is caught and yields the same; any other error status is rethrown
(`Except.error`). -/
def getFile : GhResult → Except Nat FileOut
  | GhResult.found c sha =>
      if !c.isEmpty && !sha.isEmpty then Except.ok ⟨c, some sha⟩
      else Except.ok ⟨"", none⟩
  | GhResult.directory => Except.ok ⟨"", none⟩
  | GhResult.err status =>
      if status == 404 then Except.ok ⟨"", none⟩ else Except.error status

/-- From `src/src/functions/dashboard.ts` lines 52–56: the placeholder body the
inner catch would return for a 404. -/
def DASHBOARD_NOT_FOUND : String :=
  "# Dashboard Not Found\n\nThis dashboard has not been created yet. Try running the associated agent command first!"

/-- From `src/src/functions/dashboard.ts` lines 38–67 (auth and type
validation already passed): call `getFile`; on success return 200 with the
file content; if `getFile` throws, return the 404 placeholder when the
error status is 404, otherwise let the outer catch return 500. -/
def dashboardGetResult (r : GhResult) : Nat × String :=
  match getFile r with
  | Except.ok out => (200, out.content)
  | Except.error status =>
      if status == 404 then (200, DASHBOARD_NOT_FOUND)
      else (500, "Internal Server Error")

/-- One record of the DynamoDB change feed consumed by the Backup
Propagator (`src/unnamed/part_021`): the stream event name and the new
image, when present. -/
structure StreamRecord where
  eventName : String
  newImage : Option ConstellationRecord := none
  deriving Repr, DecidableEq

/-- JS template interpolation of an optional string
(`` `${item.mediaType}` `` renders `undefined` as the text "undefined"). -/
def optStrTemplate : Option String → String
  | none => "undefined"
  | some s => s

/-- One optional frontmatter line: `item.field ? 'label: "..."' : ""`
(falsy — absent or empty — fields produce `""`, later filtered out). -/
def fmOptLine (label : String) (v : Option String) : String :=
  if jsTruthyOptStr v then label ++ ": \"" ++ v.getD "" ++ "\"" else ""

/-- From `src/unnamed/part_021` lines 41–52: the frontmatter block rendered for
an Entry record (empty conditional lines filtered, joined with newlines).
Note `item.tags ? ... : ""`: an empty tags *array* is truthy in JS, so
`some []` still renders `tags: []`. -/
def entryFrontmatter (item : ConstellationRecord) : String :=
  String.intercalate "\n"
    (([ "---",
        "id: \"" ++ item.id ++ "\"",
        "created_at: \"" ++ item.createdAt ++ "\"",
        "original: " ++ (if item.isOriginal then "true" else "false"),
        "type: \"" ++ optStrTemplate item.mediaType ++ "\"",
        (match item.tags with
         | some ts =>
             "tags: [" ++ String.intercalate ", " (ts.map (fun tg => "\"" ++ tg ++ "\"")) ++ "]"
         | none => ""),
        fmOptLine "source_url" item.sourceURL,
        fmOptLine "source_title" item.sourceTitle,
        fmOptLine "source_author" item.sourceAuthor,
        "---" ]).filter (fun l => !l.isEmpty))

/-- Year component of an ISO timestamp (`new Date(s).getFullYear()`; the
runtime clock is UTC, so the accessors agree with the string fields of the
ISO form). -/
def isoYear (s : String) : String := (s.toList.take 4).asString

/-- Month component, already zero-padded in the ISO form
(`String(getMonth() + 1).padStart(2, '0')`). -/
def isoMonth (s : String) : String := ((s.toList.drop 5).take 2).asString

/-- Day component (`String(getDate()).padStart(2, '0')`). -/
def isoDay (s : String) : String := ((s.toList.drop 8).take 2).asString

/-- From `src/unnamed/part_021` lines 19–65: the archival path and rendered
file content for one change-feed image, or `none` when the record is
skipped (`skipBackup`, a type other than Entry/Dashboard, or a dashboard
id other than `life_log`).  Dashboards mirror their raw content to the
fixed path; Entries get frontmatter plus body at a date-partitioned
path. -/
def renderBackup (item : ConstellationRecord) : Option (String × String) :=
  if item.skipBackup then none
  else if item.type != "Entry" && item.type != "Dashboard" then none
  else if item.type == "Dashboard" then
    if item.id == "life_log" then some ("00_Life_Log.md", item.content) else none
  else
    let fileContent := entryFrontmatter item ++ "\n\n" ++ item.content
    let y := isoYear item.createdAt
    let m := isoMonth item.createdAt
    let d := isoDay item.createdAt
    some ("Archive/" ++ y ++ "/" ++ m ++ "/" ++ y ++ "-" ++ m ++ "-" ++ d ++ "_" ++ item.id ++ ".md",
          fileContent)

/-- The Archival Blob Store: path-addressed file contents.  The version
token / commit machinery of `createOrUpdateFile` resolves to
put-at-path. -/
abbrev Archive := List (String × String)

/-- Net effect of `createOrUpdateFile` (`src/src/utils.ts` lines 52–76):
after the call, the file at `path` holds `content`. -/
def archivePut (store : Archive) (path content : String) : Archive :=
  (path, content) :: store.filter (fun e => !(e.1 == path))

/-- From `src/unnamed/part_021` lines 10–77: process one stream record —
INSERT/MODIFY events with an image are rendered and written; everything
else is skipped (a failed write is logged and skipped, so the successful
path modelled here is the only state change). -/
def processStreamRecord (store : Archive) (r : StreamRecord) : Archive :=
  if r.eventName == "INSERT" || r.eventName == "MODIFY" then
    match r.newImage with
    | none => store
    | some item =>
        match renderBackup item with
        | some pc => archivePut store pc.1 pc.2
        | none => store
  else store

/-- From `src/unnamed/part_021` lines 7–79: the stream handler folds over the
batch in order. -/
def backupHandler (store : Archive) (records : List StreamRecord) : Archive :=
  records.foldl processStreamRecord store

end Constellation

namespace Constellation

/-- Reading a key just written returns the written record. -/
theorem getRecord_putRecord_same (t : Table) (r : ConstellationRecord) :
    getRecord (putRecord t r) r.PK r.SK = some r := by
  simp [getRecord, putRecord, List.find?_cons]

/-- Reading a different key is unaffected by a write. -/
theorem getRecord_putRecord_ne (t : Table) (r : ConstellationRecord)
    (pk sk : String) (h : pk ≠ r.PK ∨ sk ≠ r.SK) :
    getRecord (putRecord t r) pk sk = getRecord t pk sk := by
  have hfalse : (r.PK == pk && r.SK == sk) = false := by
    rcases h with h | h
    · have hb : (r.PK == pk) = false := beq_eq_false_iff_ne.mpr (Ne.symm h)
      simp [hb]
    · have hb : (r.SK == sk) = false := beq_eq_false_iff_ne.mpr (Ne.symm h)
      simp [hb]
  simp [getRecord, putRecord, List.find?_cons, hfalse]

/-- Entry partition keys are distinct from the reading-list dashboard
partition key. -/
theorem userPK_ne_readingListPK (u : String) : ("USER#" ++ u) ≠ READING_LIST_PK := by
  intro h
  have hd : ("USER#" ++ u).data = READING_LIST_PK.data := congrArg String.data h
  rw [String.data_append] at hd
  rw [show "USER#".data = ['U', 'S', 'E', 'R', '#'] from rfl] at hd
  rw [show READING_LIST_PK.data = "DASHBOARD#reading_list".data from rfl] at hd
  simp at hd

/-- Membership through one stable-insertion step. -/
theorem mem_insertDesc {score : α → Int} {x m : α} {l : List α}
    (h : x ∈ insertDesc score m l) : x = m ∨ x ∈ l := by
  induction l with
  | nil => simpa [insertDesc] using h
  | cons a t ih =>
      by_cases hc : score m ≤ score a
      · simp only [insertDesc, if_pos hc, List.mem_cons] at h
        rcases h with h | h
        · exact Or.inr (by simp [h])
        · rcases ih h with h | h
          · exact Or.inl h
          · exact Or.inr (by simp [h])
      · simp only [insertDesc, if_neg hc, List.mem_cons] at h
        rcases h with h | h
        · exact Or.inl h
        · exact Or.inr (by simpa using h)

/-- A stable-insertion step preserves descending order. -/
theorem pairwise_insertDesc {score : α → Int} (m : α) {l : List α}
    (h : List.Pairwise (fun a b => score b ≤ score a) l) :
    List.Pairwise (fun a b => score b ≤ score a) (insertDesc score m l) := by
  induction l with
  | nil => simp [insertDesc]
  | cons a t ih =>
      rcases List.pairwise_cons.mp h with ⟨ha, ht⟩
      by_cases hc : score m ≤ score a
      · rw [insertDesc, if_pos hc]
        refine List.pairwise_cons.mpr ⟨?_, ih ht⟩
        intro x hx
        rcases mem_insertDesc hx with rfl | hx
        · exact hc
        · exact ha x hx
      · rw [insertDesc, if_neg hc]
        have hma : score a ≤ score m := le_of_not_le hc
        refine List.pairwise_cons.mpr ⟨?_, h⟩
        intro x hx
        rcases List.mem_cons.mp hx with rfl | hx
        · exact hma
        · exact le_trans (ha x hx) hma

/-- The fold-left insertion sort returns a descending list provided the
accumulator is descending. -/
theorem pairwise_sortDescAux {score : α → Int} (l acc : List α)
    (h : List.Pairwise (fun a b => score b ≤ score a) acc) :
    List.Pairwise (fun a b => score b ≤ score a)
      (l.foldl (fun acc m => insertDesc score m acc) acc) := by
  induction l generalizing acc with
  | nil => simpa using h
  | cons a t ih => exact ih (insertDesc score a acc) (pairwise_insertDesc a h)

/-- The sort `sortDesc` sorts descending by the score. -/
theorem pairwise_sortDesc {score : α → Int} (l : List α) :
    List.Pairwise (fun a b => score b ≤ score a) (sortDesc score l) :=
  pairwise_sortDescAux l [] (by simp)

/-- Elements of the sorted accumulator fold come from the input or the
accumulator. -/
theorem mem_sortDescAux {score : α → Int} {x : α} (l acc : List α)
    (h : x ∈ l.foldl (fun acc m => insertDesc score m acc) acc) :
    x ∈ acc ∨ x ∈ l := by
  induction l generalizing acc with
  | nil => exact Or.inl (by simpa using h)
  | cons a t ih =>
      rcases ih (insertDesc score a acc) (by simpa using h) with h | h
      · rcases mem_insertDesc h with rfl | h
        · exact Or.inr (by simp)
        · exact Or.inl h
      · exact Or.inr (by simp [h])

/-- The sort `sortDesc` permutes within the input list (membership direction needed
here). -/
theorem mem_sortDesc {score : α → Int} {x : α} {l : List α}
    (h : x ∈ sortDesc score l) : x ∈ l := by
  rcases mem_sortDescAux l [] h with h | h
  · simp at h
  · exact h

/-- Writing the same path twice leaves the archive as one write does. -/
theorem archivePut_idem (s : Archive) (p c : String) :
    archivePut (archivePut s p c) p c = archivePut s p c := by
  simp [archivePut, List.filter_filter]

/-- Replaying one change-feed record is a no-op: the second processing
renders the same path and content and overwrites the file with itself. -/
theorem processStreamRecord_idem (store : Archive) (r : StreamRecord) :
    processStreamRecord (processStreamRecord store r) r = processStreamRecord store r := by
  by_cases hev : (r.eventName == "INSERT" || r.eventName == "MODIFY") = true
  · cases himg : r.newImage with
    | none => simp [processStreamRecord, hev, himg]
    | some item =>
        cases hrb : renderBackup item with
        | none => simp [processStreamRecord, hev, himg, hrb]
        | some pc => simp [processStreamRecord, hev, himg, hrb, archivePut_idem]
  · simp [processStreamRecord, hev]

/-- C1 (preliminary form over the record constructor): for a router output
with text or missing media type, the assembled Entry's content is the raw
input, whatever `ro.content` is. -/
theorem mkEntryRecord_content_text (userId rawInput idv now : String)
    (ro : IntentRouterOutput)
    (h : ro.mediaType = some "text" ∨ ro.mediaType = none) :
    (mkEntryRecord userId rawInput ro idv now).content = rawInput := by
  rcases h with h | h <;>
    simp [mkEntryRecord, mkFinalContent, jsTruthyOptStr, h]

/-- C1: for every save/log_reading ingestion whose router output has
mediaType `text` (or a missing mediaType), the Entry record persisted to
the Durable Store stores the raw input string verbatim as its `content`,
regardless of the `content` the classification oracle returned — in every
outcome of the branch (successful dual write, failed index upsert, and the
log_reading sub-branch). -/
theorem ingestSaveBranch_db_entry (userId rawInput idv now : String)
    (ro : IntentRouterOutput) (env : IngestEnv) (t : Table) :
    getRecord (ingestSaveBranch userId rawInput ro idv now env t).db
      ("USER#" ++ userId) ("ENTRY#" ++ idv)
      = some (mkEntryRecord userId rawInput ro idv now) := by
  have hput : getRecord (putRecord t (mkEntryRecord userId rawInput ro idv now))
      ("USER#" ++ userId) ("ENTRY#" ++ idv)
      = some (mkEntryRecord userId rawInput ro idv now) :=
    getRecord_putRecord_same t _
  have hstep : getRecord (updateReadingList env.oracle env.lbClock
        (putRecord t (mkEntryRecord userId rawInput ro idv now))
        (mkFinalContent ro rawInput)).1
        ("USER#" ++ userId) ("ENTRY#" ++ idv)
      = getRecord (putRecord t (mkEntryRecord userId rawInput ro idv now))
        ("USER#" ++ userId) ("ENTRY#" ++ idv) :=
    getRecord_putRecord_ne _ _ _ _ (Or.inl (userPK_ne_readingListPK userId))
  unfold ingestSaveBranch
  by_cases hf : env.upsertFails
  · simpa [hf] using hput
  · by_cases hint : (ro.intent == "log_reading") = true
    · simpa [hf, hint, hstep] using hput
    · simpa [hf, hint] using hput

/-- C1: for every save/log_reading ingestion whose router output has
mediaType `text` (or a missing mediaType), the Entry record persisted to
the Durable Store stores the raw input string verbatim as its `content`,
regardless of the `content` the classification oracle returned — in every
outcome of the branch (successful dual write, failed index upsert, and the
log_reading sub-branch). -/
theorem C1_verbatim_preservation (userId rawInput idv now : String)
    (ro : IntentRouterOutput) (env : IngestEnv) (t : Table)
    (h : ro.mediaType = some "text" ∨ ro.mediaType = none) :
    (getRecord (ingestSaveBranch userId rawInput ro idv now env t).db
        ("USER#" ++ userId) ("ENTRY#" ++ idv)).map ConstellationRecord.content
      = some rawInput := by
  rw [ingestSaveBranch_db_entry userId rawInput idv now ro env t, Option.map_some',
    mkEntryRecord_content_text userId rawInput idv now ro h]

/-- C1 witness: a concrete text-media save request stores the raw input,
not the oracle's paraphrase. -/
theorem C1_verbatim_preservation_witness :
    (getRecord (ingestSaveBranch "u1" "raw words of the user"
        { intent := "save", isOriginal := true, content := "AI PARAPHRASE",
          mediaType := some "text" }
        "id1" "2025-01-01T00:00:00Z"
        { upsertFails := false, oracle := fun _ _ => "", lbClock := ⟨"", ""⟩ } []).db
      "USER#u1" "ENTRY#id1").map ConstellationRecord.content
      = some "raw words of the user" :=
  C1_verbatim_preservation "u1" "raw words of the user" "id1" "2025-01-01T00:00:00Z"
    { intent := "save", isOriginal := true, content := "AI PARAPHRASE",
      mediaType := some "text" }
    { upsertFails := false, oracle := fun _ _ => "", lbClock := ⟨"", ""⟩ } []
    (Or.inl rfl)

/-- C3 counterexample: the biographer worker (`src/unnamed/part_013`) is an
ingestion path that persists the entry to both stores, yet it issues the
Pinecone upsert (line 73) before the DynamoDB save (line 95): the
durable-store-first ordering is violated on its trace. -/
theorem C3_counterexample :
    durableFirst false (biographerTrace true "default-user" "biography-1736899200000") = false := by
  decide

/-- C3 (amended): the main ingest handler's save/log_reading branch always
issues the Durable Store write before the Vector Index upsert, but the
biographer worker path issues the index upsert before the durable write,
for every user and entry id. -/
theorem C3_amended_store_ordering (userId rawInput idv now : String)
    (ro : IntentRouterOutput) (env : IngestEnv) (t : Table) (u e : String) :
    durableFirst false (ingestSaveBranch userId rawInput ro idv now env t).trace = true
    ∧ durableFirst false (biographerTrace true u e) = false := by
  constructor
  · unfold ingestSaveBranch
    by_cases hf : env.upsertFails
    · simp [hf, durableFirst]
    · by_cases hint : (ro.intent == "log_reading") = true
      · simp [hf, hint, durableFirst]
      · simp [hf, hint, durableFirst]
  · simp [biographerTrace, durableFirst]

/-- C4 counterexample: a save-intent ingestion whose DynamoDB write
succeeds and whose Pinecone upsert then fails returns HTTP 500 (the
exception reaches the handler's top-level catch, `src/src/ingest.ts` lines
229–235), not a success status — even though the entry is still durably
stored. -/
theorem C4_counterexample :
    (ingestSaveBranch "u1" "some text"
        { intent := "save", isOriginal := true, content := "some text",
          mediaType := some "text" }
        "id1" "2025-01-01T00:00:00Z"
        { upsertFails := true, oracle := fun _ _ => "", lbClock := ⟨"", ""⟩ } []).statusCode
      = 500
    ∧ (ingestSaveBranch "u1" "some text"
        { intent := "save", isOriginal := true, content := "some text",
          mediaType := some "text" }
        "id1" "2025-01-01T00:00:00Z"
        { upsertFails := true, oracle := fun _ _ => "", lbClock := ⟨"", ""⟩ } []).statusCode
      ≠ 200
    ∧ getRecord (ingestSaveBranch "u1" "some text"
        { intent := "save", isOriginal := true, content := "some text",
          mediaType := some "text" }
        "id1" "2025-01-01T00:00:00Z"
        { upsertFails := true, oracle := fun _ _ => "", lbClock := ⟨"", ""⟩ } []).db
        "USER#u1" "ENTRY#id1"
      = some (mkEntryRecord "u1" "some text"
          { intent := "save", isOriginal := true, content := "some text",
            mediaType := some "text" }
          "id1" "2025-01-01T00:00:00Z") := by
  refine ⟨rfl, by decide, by decide⟩

/-- C4 (amended): when the Durable Store write succeeds and the Vector
Index upsert then fails, the entry remains durably saved and retrievable,
but the ingestion call returns status 500 (the index failure is surfaced
as a failure of the whole request, not logged-and-tolerated). -/
theorem C4_amended_index_failure (userId rawInput idv now : String)
    (ro : IntentRouterOutput) (oracle : String → String → String)
    (clk : LogBookClock) (t : Table) :
    (ingestSaveBranch userId rawInput ro idv now ⟨true, oracle, clk⟩ t).statusCode = 500
    ∧ getRecord (ingestSaveBranch userId rawInput ro idv now ⟨true, oracle, clk⟩ t).db
        ("USER#" ++ userId) ("ENTRY#" ++ idv)
      = some (mkEntryRecord userId rawInput ro idv now) :=
  ⟨rfl, ingestSaveBranch_db_entry userId rawInput idv now ro ⟨true, oracle, clk⟩ t⟩

set_option maxRecDepth 8000 in
/-- C2 counterexample: the reading-list dashboard initially contains a
`## Current Reading` section listing Dune; the batch recommendation
persist handler runs with synthesized markdown that does not mention that
section; afterwards the stored dashboard content is exactly the synthesized
markdown, and the `## Current Reading` section (and Dune) is gone — the
write is a full-document replacement, not a read-merge-write of the
recommendation subsection. -/
theorem C2_counterexample :
    (getRecord (persistRecsHandler ⟨"2025-06-01T00:00:00Z", "2025-06-01T00:00:00Z"⟩
          [(("DASHBOARD#reading_list", "STATE"),
            { PK := "DASHBOARD#reading_list", SK := "STATE", id := "reading_list",
              type := "Dashboard", createdAt := "2024-01-01T00:00:00Z",
              updatedAt := "2024-01-01T00:00:00Z",
              content := "## Current Reading\n- Dune", isOriginal := false,
              mediaType := some "text",
              lastAccessed := "2024-01-01T00:00:00Z" })]
          "# Dialectical Librarian Recommendations for June 1, 2025\n\n## Some Book\nBooks | [Link](https://example.com)\n\nA perspective paragraph.").1
        READING_LIST_PK READING_LIST_SK).map ConstellationRecord.content
      = some "# Dialectical Librarian Recommendations for June 1, 2025\n\n## Some Book\nBooks | [Link](https://example.com)\n\nA perspective paragraph."
    ∧ containsSub "# Dialectical Librarian Recommendations for June 1, 2025\n\n## Some Book\nBooks | [Link](https://example.com)\n\nA perspective paragraph."
        "## Current Reading" = false
    ∧ containsSub "## Current Reading\n- Dune" "## Current Reading" = true := by
  refine ⟨by decide, by decide, by decide⟩

/-- C2 (amended): the batch recommendation persist handler performs a
full-document replacement — whenever the skip-guard passes (non-empty
markdown not containing "No new book recommendations"), the stored
dashboard content afterwards is exactly the synthesized markdown, so a
previously stored section such as `## Current Reading` survives only if
the synthesized markdown itself happens to contain it; only the
`createdAt` timestamp is carried over from the previous record. -/
theorem C2_amended_full_replacement (clk : PersistRecsClock) (t : Table)
    (md : String) (h1 : md ≠ "")
    (h2 : containsSub md "No new book recommendations" = false) :
    (getRecord (persistRecsHandler clk t md).1 READING_LIST_PK READING_LIST_SK).map
        ConstellationRecord.content = some md := by
  have hempty : md.isEmpty = false := by
    cases he : md.isEmpty
    · rfl
    · exact absurd ((String.isEmpty_iff md).mp he) h1
  unfold persistRecsHandler
  rw [hempty, h2]
  simp only [Bool.or_self, Bool.false_eq_true, if_false]
  rw [getRecord_putRecord_same _ _, Option.map_some']

/-- C2 witness: a concrete guard-passing markdown is stored verbatim as
the whole dashboard content. -/
theorem C2_amended_full_replacement_witness :
    (getRecord (persistRecsHandler ⟨"n", "i"⟩ [] "fresh recommendations").1
        READING_LIST_PK READING_LIST_SK).map ConstellationRecord.content
      = some "fresh recommendations" :=
  C2_amended_full_replacement ⟨"n", "i"⟩ [] "fresh recommendations"
    (by decide) (by decide)

/-- C5 counterexample: two mocked matches with equal scores where the
newer entry (later `createdAt`) arrives second in the merged per-namespace
lists: the fused output keeps the older match first — the JS sort is
stable on the score alone and breaks no ties by recency. -/
theorem C5_counterexample :
    (crossDomainFusion (fun ns =>
        if ns = none then
          [{ id := "older", score := some 5, createdAt := "2024-01-01T00:00:00Z" },
           { id := "newer", score := some 5, createdAt := "2025-01-01T00:00:00Z" }]
        else [])).map RecallMatch.id = ["older", "newer"]
    ∧ scoreOr0 { id := "older", score := some 5, createdAt := "2024-01-01T00:00:00Z" }
        = scoreOr0 { id := "newer", score := some 5, createdAt := "2025-01-01T00:00:00Z" }
    ∧ ("2024-01-01T00:00:00Z".data) < ("2025-01-01T00:00:00Z".data) := by
  refine ⟨by decide, by decide, by decide⟩

/-- C5 (amended): for every cross-domain query the fused recall output is
sorted descending by `score || 0` and truncated to at most 15 items; ties
keep the merged per-namespace order (the sort is stable), with no recency
tie-break. -/
theorem C5_amended_fusion_order (queryFn : Option String → List RecallMatch) :
    List.Pairwise (fun a b => scoreOr0 b ≤ scoreOr0 a) (crossDomainFusion queryFn)
    ∧ (crossDomainFusion queryFn).length ≤ 15 := by
  constructor
  · exact List.Pairwise.sublist (List.take_sublist 15 _) (pairwise_sortDesc _)
  · exact List.length_take_le 15 _

/-- C6 counterexample: the biographer recall query
(`src/unnamed/part_013` line 98) carries no owner filter: with the index
holding only an entry owned by `userB`, the recall performed while
processing another user's ingestion returns `userB`'s entry — unlike an
owner-filtered query over the same index, which returns nothing. -/
theorem C6_counterexample :
    (biographerRecall
        [{ id := "b-entry", ns := some "biography", values := [1], userId := some "userB" }]
        [1]).map PineVec.userId = [some "userB"]
    ∧ pineQuery
        [{ id := "b-entry", ns := some "biography", values := [1], userId := some "userB" }]
        (some "biography") [1] 5 (some "userA") = [] := by
  refine ⟨by decide, by decide⟩

/-- C6 (amended): the queries of the ingest cross-domain query branch all
carry the `{ userId }` filter, so every match they return belongs to the
requesting user; but the biographer worker's recall query carries no owner
filter, and can return vectors owned by a different user. -/
theorem C6_amended_owner_scoping :
    (∀ (idx : List PineVec) (userId : String) (vec : List Int) (m : PineVec),
        m ∈ ingestCrossDomainRecall idx userId vec → m.userId = some userId)
    ∧ (biographerRecall
          [{ id := "leak", ns := some "biography", values := [2], userId := some "userB" }]
          [3]).map PineVec.userId = [some "userB"] := by
  constructor
  · intro idx userId vec m hm
    have h1 : m ∈ (queryNamespaces.map (fun ns =>
        pineQuery idx (if ns.isEmpty then none else some ns) vec 5 (some userId))).flatten :=
      mem_sortDesc (List.mem_of_mem_take hm)
    rcases List.mem_flatten.mp h1 with ⟨l, hl, hml⟩
    rcases List.mem_map.mp hl with ⟨ns, _, rfl⟩
    have h2 : m ∈ idx.filter (fun v =>
        v.ns == (if ns.isEmpty then none else some ns) && matchesFilter (some userId) v) :=
      mem_sortDesc (List.mem_of_mem_take hml)
    have h3 := (List.mem_filter.mp h2).2
    have h4 : matchesFilter (some userId) m = true := (Bool.and_eq_true _ _).mp h3 |>.2
    exact eq_of_beq h4
  · decide

/-- C6 witness: a vector owned by the requesting user is returned by the
owner-filtered cross-domain recall and indeed carries that owner id. -/
theorem C6_amended_owner_scoping_witness :
    (⟨"a1", some "biography", [2], some "u9"⟩ : PineVec).userId = some "u9" :=
  C6_amended_owner_scoping.1 [⟨"a1", some "biography", [2], some "u9"⟩] "u9" [2]
    ⟨"a1", some "biography", [2], some "u9"⟩ (by decide)

/-- C7: the Backup Propagator is idempotent — the archival path and file
content are computed by `renderBackup` from the change-feed record image
alone, so processing the same Entry or Dashboard record twice writes the
same path and identical content and leaves the archive exactly as one
processing does. -/
theorem C7_backup_idempotent (store : Archive) (rec : StreamRecord)
    (item : ConstellationRecord) (_h : rec.newImage = some item)
    (_htype : item.type = "Entry" ∨ item.type = "Dashboard") :
    backupHandler store [rec, rec] = backupHandler store [rec] := by
  simp only [backupHandler, List.foldl_cons, List.foldl_nil]
  exact processStreamRecord_idem store rec

/-- C7 witness: replaying a concrete Entry insert is a no-op. -/
theorem C7_backup_idempotent_witness :
    backupHandler []
        [⟨"INSERT", some
           { PK := "USER#u1", SK := "ENTRY#e1", id := "e1", type := "Entry",
             createdAt := "2025-03-04T05:06:07Z", updatedAt := "2025-03-04T05:06:07Z",
             content := "a note", isOriginal := true, mediaType := some "text",
             tags := some ["idea"], lastAccessed := "2025-03-04T05:06:07Z" }⟩,
         ⟨"INSERT", some
           { PK := "USER#u1", SK := "ENTRY#e1", id := "e1", type := "Entry",
             createdAt := "2025-03-04T05:06:07Z", updatedAt := "2025-03-04T05:06:07Z",
             content := "a note", isOriginal := true, mediaType := some "text",
             tags := some ["idea"], lastAccessed := "2025-03-04T05:06:07Z" }⟩]
      = backupHandler []
        [⟨"INSERT", some
           { PK := "USER#u1", SK := "ENTRY#e1", id := "e1", type := "Entry",
             createdAt := "2025-03-04T05:06:07Z", updatedAt := "2025-03-04T05:06:07Z",
             content := "a note", isOriginal := true, mediaType := some "text",
             tags := some ["idea"], lastAccessed := "2025-03-04T05:06:07Z" }⟩] :=
  C7_backup_idempotent [] _
    { PK := "USER#u1", SK := "ENTRY#e1", id := "e1", type := "Entry",
      createdAt := "2025-03-04T05:06:07Z", updatedAt := "2025-03-04T05:06:07Z",
      content := "a note", isOriginal := true, mediaType := some "text",
      tags := some ["idea"], lastAccessed := "2025-03-04T05:06:07Z" }
    rfl (Or.inl rfl)

/-- The reading-list dashboard record written by `updateReadingList`
carries the `createdAt` computed from the pre-existing record: preserved
when that record exists with truthy content, reset to the current time
otherwise. -/
theorem updateReadingList_createdAt (oracle : String → String → String)
    (clk : LogBookClock) (t : Table) (newLog : String) :
    (getRecord (updateReadingList oracle clk t newLog).1
        READING_LIST_PK READING_LIST_SK).map ConstellationRecord.createdAt
      = some (match getRecord t READING_LIST_PK READING_LIST_SK with
          | some it => if !it.content.isEmpty then it.createdAt else clk.now
          | none => clk.now) := by
  have h := getRecord_putRecord_same t
    ({ PK := READING_LIST_PK
       SK := READING_LIST_SK
       id := "reading_list"
       type := "Dashboard"
       createdAt := (match getRecord t READING_LIST_PK READING_LIST_SK with
          | some it => if !it.content.isEmpty then it.createdAt else clk.now
          | none => clk.now)
       updatedAt := clk.isoDate
       content := lbSanitizeMarkdown (oracle newLog
          (match getRecord t READING_LIST_PK READING_LIST_SK with
           | some it => if !it.content.isEmpty then it.content else INITIAL_READING_LIST
           | none => INITIAL_READING_LIST))
       isOriginal := false
       mediaType := some "text"
       lastAccessed := clk.isoDate } : ConstellationRecord)
  exact congrArg (Option.map ConstellationRecord.createdAt) h

/-- C8 counterexample: a reading-list dashboard record exists (with empty
content, as a failed sanitize pass can produce) and carries
`createdAt = 2020-01-01`; an `updateReadingList` rewrite at 2025-06-01
persists a replacement whose `createdAt` is the rewrite time, not the
existing record's — the first-generation timestamp is lost. -/
theorem C8_counterexample :
    (getRecord (updateReadingList (fun _ _ => "updated document")
          ⟨"2025-06-01T00:00:00Z", "2025-06-01T00:00:01Z"⟩
          [(("DASHBOARD#reading_list", "STATE"),
            { PK := "DASHBOARD#reading_list", SK := "STATE", id := "reading_list",
              type := "Dashboard", createdAt := "2020-01-01T00:00:00Z",
              updatedAt := "2020-01-01T00:00:00Z", content := "", isOriginal := false,
              mediaType := some "text", lastAccessed := "2020-01-01T00:00:00Z" })]
          "started reading Dune").1
        READING_LIST_PK READING_LIST_SK).map ConstellationRecord.createdAt
      = some "2025-06-01T00:00:00Z"
    ∧ ("2025-06-01T00:00:00Z" : String) ≠ "2020-01-01T00:00:00Z" := by
  refine ⟨by rw [updateReadingList_createdAt]; decide, by decide⟩

/-- C8 (amended): a dashboard rewrite preserves the existing record's
`createdAt` provided the existing record is truthy in the field the
rewriting code guards on — non-empty `content` for the reading-list
updater (`logBook.ts`), non-empty `createdAt` for the biographer
(`part_013`); a reading-list rewrite over an existing record with empty
content resets `createdAt` to the current time. -/
theorem C8_amended_createdAt_preserved :
    (∀ (oracle : String → String → String) (clk : LogBookClock) (t : Table)
        (newLog : String) (it : ConstellationRecord),
        getRecord t READING_LIST_PK READING_LIST_SK = some it →
        it.content ≠ "" →
        (getRecord (updateReadingList oracle clk t newLog).1
            READING_LIST_PK READING_LIST_SK).map ConstellationRecord.createdAt
          = some it.createdAt)
    ∧ (∀ (existing : ConstellationRecord) (isoDate c : String),
        existing.createdAt ≠ "" →
        (biographerDashRecord (some existing) isoDate c).createdAt
          = existing.createdAt) := by
  constructor
  · intro oracle clk t newLog it hit hne
    have hcont : it.content.isEmpty = false := by
      cases he : it.content.isEmpty
      · rfl
      · exact absurd ((String.isEmpty_iff it.content).mp he) hne
    rw [updateReadingList_createdAt, hit]
    simp [hcont]
  · intro existing isoDate c hne
    have hcr : existing.createdAt.isEmpty = false := by
      cases he : existing.createdAt.isEmpty
      · rfl
      · exact absurd ((String.isEmpty_iff existing.createdAt).mp he) hne
    simp [biographerDashRecord, hcr]

/-- C8 witness: a rewrite over an existing record with non-empty content
keeps its 2020 creation timestamp. -/
theorem C8_amended_createdAt_preserved_witness :
    (getRecord (updateReadingList (fun _ _ => "full document")
          ⟨"2031-01-01T00:00:00Z", "2031-01-01T00:00:00Z"⟩
          [(("DASHBOARD#reading_list", "STATE"),
            { PK := "DASHBOARD#reading_list", SK := "STATE", id := "reading_list",
              type := "Dashboard", createdAt := "2020-05-05T00:00:00Z",
              updatedAt := "2020-05-05T00:00:00Z",
              content := "## Current Reading\n- Dune", isOriginal := false,
              mediaType := some "text", lastAccessed := "2020-05-05T00:00:00Z" })]
          "finished Dune").1
        READING_LIST_PK READING_LIST_SK).map ConstellationRecord.createdAt
      = some "2020-05-05T00:00:00Z" :=
  C8_amended_createdAt_preserved.1 (fun _ _ => "full document")
    ⟨"2031-01-01T00:00:00Z", "2031-01-01T00:00:00Z"⟩
    [(("DASHBOARD#reading_list", "STATE"),
      { PK := "DASHBOARD#reading_list", SK := "STATE", id := "reading_list",
        type := "Dashboard", createdAt := "2020-05-05T00:00:00Z",
        updatedAt := "2020-05-05T00:00:00Z",
        content := "## Current Reading\n- Dune", isOriginal := false,
        mediaType := some "text", lastAccessed := "2020-05-05T00:00:00Z" })]
    "finished Dune"
    { PK := "DASHBOARD#reading_list", SK := "STATE", id := "reading_list",
      type := "Dashboard", createdAt := "2020-05-05T00:00:00Z",
      updatedAt := "2020-05-05T00:00:00Z",
      content := "## Current Reading\n- Dune", isOriginal := false,
      mediaType := some "text", lastAccessed := "2020-05-05T00:00:00Z" }
    (by decide) (by decide)

/-- C9: with zero valid books and zero articles the insight-synthesis step
returns the placeholder `## No new recommendations were found in this
run.`; that string does not contain the substring the persist handler's
skip-guard tests for (`No new book recommendations`), so the placeholder
is persisted as the reading-list dashboard content instead of the update
being skipped. -/
theorem C9_placeholder_persisted :
    synthesizeInsightsResult [] [] "whatever the oracle says" "June 1, 2025"
        = "## No new recommendations were found in this run."
    ∧ containsSub "## No new recommendations were found in this run."
        "No new book recommendations" = false
    ∧ (getRecord (persistRecsHandler ⟨"2025-06-01T00:00:00Z", "2025-06-01T00:00:00Z"⟩ []
          (synthesizeInsightsResult [] [] "whatever the oracle says" "June 1, 2025")).1
        READING_LIST_PK READING_LIST_SK).map ConstellationRecord.content
      = some "## No new recommendations were found in this run." := by
  refine ⟨by decide, by decide, by decide⟩

/-- C10: `getFile` maps a 404 from the archival store to
`{ content: "", sha: undefined }` instead of throwing, so every error it
does rethrow has a status other than 404 — the dashboard endpoint's catch
branch returning the `# Dashboard Not Found` placeholder is unreachable —
and a request for a dashboard whose backing file does not exist returns
status 200 with an empty content string. -/
theorem C10_getFile_swallows_404 :
    (∀ (r : GhResult) (status : Nat), getFile r = Except.error status → status ≠ 404)
    ∧ getFile (GhResult.err 404) = Except.ok ⟨"", none⟩
    ∧ dashboardGetResult (GhResult.err 404) = (200, "") := by
  refine ⟨?_, rfl, rfl⟩
  intro r status h
  cases r with
  | found c sha =>
      cases hc : (!c.isEmpty && !sha.isEmpty) <;> simp [getFile, hc] at h
  | directory => simp [getFile] at h
  | err s =>
      by_cases hs : s = 404
      · subst hs
        simp [getFile] at h
      · have hg : getFile (GhResult.err s) = Except.error s := by
          simp [getFile, hs]
        rw [hg] at h
        injection h with h2
        subst h2
        exact hs

/-- C10 witness: a non-404 failure (status 500) is indeed rethrown by
`getFile`, and its status differs from 404. -/
theorem C10_getFile_swallows_404_witness : (500 : Nat) ≠ 404 :=
  C10_getFile_swallows_404.1 (GhResult.err 500) 500 rfl

end Constellation
